import Mathlib

/-!
Shallow embedding of the TFX ExampleGen component family and executor
specifications, from:

  * src/tfx/components/base/executor_spec.py
  * src/tfx/components/example_gen/component.py

Helper modules called by `component.py` but not part of the source excerpt
(`tfx.components.example_gen.utils`, `tfx.types.standard_component_specs`,
`tfx.types.channel_utils`, `tfx.components.base.base_component`) are modelled
from the specification; each such definition carries a doc comment starting
`Modelled from the spec:`.

Error values: the Python code raises exceptions; the specification names the
error kinds `InvalidSpecification`, `MissingRequiredField` and
`AmbiguousSplitConfiguration`.  Construction is embedded as a total function
into `Except SpecError`, where raising is returning `.error`.
-/

/-- Error kinds of the construction-time validation (spec section 7).  The
string payload carries the descriptive message; for code under src/ it is the
message of the `ValueError` raised there. -/
inductive SpecError where
  | InvalidSpecification (msg : String)
  | MissingRequiredField (field : String)
  | AmbiguousSplitConfiguration (msg : String)
deriving DecidableEq, Repr

/-- Boolean success test on an `Except` result (construction did not raise). -/
def exceptIsOk {ε α : Type} : Except ε α → Bool
  | .ok _ => true
  | .error _ => false

/-! ## Data model: split configuration (example_gen proto messages) -/

/-- One input split: a name plus an optional file-pattern filter
(`example_gen_pb2.Input.Split`). `pattern := none` means no pattern filter. -/
structure InputSplit where
  name : String
  pattern : Option String
deriving DecidableEq, Repr

/-- Input configuration: an ordered list of input splits
(`example_gen_pb2.Input`). -/
structure InputConfig where
  splits : List InputSplit
deriving DecidableEq, Repr

/-- One output split: a name plus a positive integer relative-size hint
(`example_gen_pb2.SplitConfig.Split`). -/
structure OutputSplit where
  name : String
  size_hint : Nat
deriving DecidableEq, Repr

/-- Output configuration: an ordered list of output splits
(`example_gen_pb2.Output`).  An empty list is the proto default. -/
structure OutputConfig where
  splits : List OutputSplit
deriving DecidableEq, Repr

/-- Opaque custom configuration passed through unchanged
(`example_gen_pb2.CustomConfig`). -/
structure CustomConfig where
  payload : String
deriving DecidableEq, Repr

/-! ## Data model: channels and artifacts -/

/-- An input-source channel of `ExternalPath` type (`types.Channel`); opaque
to this core, identified by the uri of its single artifact.  A Python
`Channel` object defines no truthiness override, so a present channel is
always truthy. -/
structure Channel where
  uri : String
deriving DecidableEq, Repr

/-- An `Examples` artifact tagged with a split name
(`standard_artifacts.Examples(split=split_name)`). -/
structure ExamplesArtifact where
  split : String
deriving DecidableEq, Repr

/-- The output channel of `Examples` artifacts, one artifact per resolved
output split. -/
structure ExamplesChannel where
  artifacts : List ExamplesArtifact
deriving DecidableEq, Repr

/-- Modelled from the spec: `channel_utils.as_channel` (tfx.types.channel_utils
is not in the source excerpt) wraps a list of artifacts into one channel. -/
def as_channel (artifacts : List ExamplesArtifact) : ExamplesChannel :=
  ⟨artifacts⟩

/-! ## Executor specifications (src/tfx/components/base/executor_spec.py) -/

/-- Opaque reference to a subclass of `base_executor.BaseExecutor`; a Python
class object is always truthy, absence is `None`. -/
structure ExecutorClass where
  id : Nat
deriving DecidableEq, Repr

/-- The `base_executor.BaseExecutor` class itself, used as the default
executor class of both ExampleGen variants. -/
def BaseExecutor : ExecutorClass := ⟨0⟩

/-- The state of a successfully constructed `ExecutorClassSpec`
(executor_spec.py lines 36-47). -/
structure ExecutorClassSpecS where
  executor_class : ExecutorClass
deriving DecidableEq, Repr

/-- `ExecutorClassSpec.__init__` (executor_spec.py lines 44-47): raises
`ValueError` — error kind `InvalidSpecification` — when `executor_class` is
falsy, i.e. `None`; otherwise stores the reference unchanged. -/
def ExecutorClassSpec.init (executor_class : Option ExecutorClass) :
    Except SpecError ExecutorClassSpecS :=
  match executor_class with
  | none => .error (.InvalidSpecification "executor_class is required")
  | some c => .ok ⟨c⟩

/-- The state of a successfully constructed `ExecutorContainerSpec`
(executor_spec.py lines 50-83). -/
structure ExecutorContainerSpecS where
  image : String
  command : Option (List String)
  args : Option (List String)
deriving DecidableEq, Repr

/-- `ExecutorContainerSpec.__init__` (executor_spec.py lines 75-83): raises
`ValueError` — error kind `InvalidSpecification` — when `image` is falsy,
i.e. `None` or the empty string; otherwise stores `image`, `command` and
`args` unchanged (absent stays absent). -/
def ExecutorContainerSpec.init (image : Option String)
    (command : Option (List String)) (args : Option (List String)) :
    Except SpecError ExecutorContainerSpecS :=
  match image with
  | none => .error (.InvalidSpecification "image cannot be None or empty.")
  | some img =>
    if img = "" then .error (.InvalidSpecification "image cannot be None or empty.")
    else .ok ⟨img, command, args⟩

/-- The resolved executor specification attached to a component definition:
either a class-based or a container-based executor. -/
inductive ExecutorSpecS where
  | classSpec (s : ExecutorClassSpecS)
  | containerSpec (s : ExecutorContainerSpecS)
deriving DecidableEq, Repr

/-! ## Split-configuration resolution (tfx.components.example_gen.utils) -/

/-- Modelled from the spec: `utils.make_default_input_config` is not in the
source excerpt.  Spec section 4.2 rule 1: when `InputConfig` is absent,
synthesize one input split named "single" spanning the entire input source,
with no pattern filter. -/
def make_default_input_config : InputConfig :=
  ⟨[⟨"single", none⟩]⟩

/-- Modelled from the spec: `utils.make_default_output_config` is not in the
source excerpt.  Spec section 4.2 rule 2: when `OutputConfig` is absent,
synthesize two output splits, "train" and "eval", with relative size hints 2
and 1; this is independent of the input configuration, so the argument is
ignored. -/
def make_default_output_config (_input_config : InputConfig) : OutputConfig :=
  ⟨[⟨"train", 2⟩, ⟨"eval", 1⟩]⟩

/-- Modelled from the spec: `utils.generate_output_split_names` is not in the
source excerpt.  Spec section 4.2 rules 3-4 and section 7: when the output
configuration's split list is non-empty while the input configuration defines
more than one input split, raise `AmbiguousSplitConfiguration`; when it is
empty, the output split names mirror the input split names one-for-one;
otherwise they are the output configuration's split names, in order. -/
def generate_output_split_names (input_config : InputConfig)
    (output_config : OutputConfig) : Except SpecError (List String) :=
  match output_config.splits with
  | [] => .ok (input_config.splits.map (fun s => s.name))
  | _ :: _ =>
    if input_config.splits.length > 1 then
      .error (.AmbiguousSplitConfiguration
        "output split configuration conflicts with input split cardinality")
    else .ok (output_config.splits.map (fun s => s.name))

/-- Python `x or y` on optional channel-like objects: a present object is
truthy, `None` is falsy (component.py line 156 and the `or` defaults on
lines 81-83 and 158-161). -/
def pyOr {α : Type} (a b : Option α) : Option α :=
  match a with
  | some x => some x
  | none => b

/-- Resolution of the input configuration (component.py line 158):
`input_config = input_config or utils.make_default_input_config()`. -/
def resolve_input_config (input_config : Option InputConfig) : InputConfig :=
  match input_config with
  | some ic => ic
  | none => make_default_input_config

/-- Resolution of the output configuration (component.py lines 81-82 and
159-160): `output_config = output_config or
utils.make_default_output_config(input_config)`. -/
def resolve_output_config (input_config : InputConfig)
    (output_config : Option OutputConfig) : OutputConfig :=
  match output_config with
  | some oc => oc
  | none => make_default_output_config input_config

/-- Resolution of the output examples channel (component.py lines 83-87 and
161-165): when `example_artifacts` is supplied it is used as-is and, by
Python `or` short-circuiting, `generate_output_split_names` is never called;
otherwise one `Examples` artifact is created per generated output split name,
in order, and wrapped with `as_channel`. -/
def resolve_example_artifacts (input_config : InputConfig)
    (output_config : OutputConfig) (example_artifacts : Option ExamplesChannel) :
    Except SpecError ExamplesChannel :=
  match example_artifacts with
  | some ch => .ok ch
  | none =>
    match generate_output_split_names input_config output_config with
    | .error e => .error e
    | .ok names => .ok (as_channel (names.map (fun n => ⟨n⟩)))

/-! ## Component specs (tfx.types.standard_component_specs) -/

/-- The state of a constructed `QueryBasedExampleGenSpec`.  Modelled from the
spec: the spec class itself is not in the source excerpt; section 4.3 — a
typed record of the resolved parameters and the output channel. -/
structure QueryBasedExampleGenSpecS where
  input_config : InputConfig
  output_config : OutputConfig
  custom_config : Option CustomConfig
  examples : ExamplesChannel
deriving DecidableEq, Repr

/-- Modelled from the spec: `QueryBasedExampleGenSpec` construction
(tfx.types.standard_component_specs is not in the source excerpt).  Spec
section 4.3: validates presence of required fields; for the query-based kind
`input_config` is required and is a non-optional argument, so construction
always succeeds. -/
def QueryBasedExampleGenSpec.init (input_config : InputConfig)
    (output_config : OutputConfig) (custom_config : Option CustomConfig)
    (examples : ExamplesChannel) : Except SpecError QueryBasedExampleGenSpecS :=
  .ok ⟨input_config, output_config, custom_config, examples⟩

/-- The state of a constructed `FileBasedExampleGenSpec`.  Modelled from the
spec: the spec class itself is not in the source excerpt; section 4.3. -/
structure FileBasedExampleGenSpecS where
  input_base : Channel
  input_config : InputConfig
  output_config : OutputConfig
  custom_config : Option CustomConfig
  examples : ExamplesChannel
deriving DecidableEq, Repr

/-- Modelled from the spec: `FileBasedExampleGenSpec` construction
(tfx.types.standard_component_specs is not in the source excerpt).  Spec
sections 4.3 and 7: file-based ingestion requires a resolvable input source;
validation is eager and fails with `MissingRequiredField` when the resolved
`input_base` is absent. -/
def FileBasedExampleGenSpec.init (input_base : Option Channel)
    (input_config : InputConfig) (output_config : OutputConfig)
    (custom_config : Option CustomConfig) (examples : ExamplesChannel) :
    Except SpecError FileBasedExampleGenSpecS :=
  match input_base with
  | none => .error (.MissingRequiredField "input_base")
  | some c => .ok ⟨c, input_config, output_config, custom_config, examples⟩

/-! ## Component definitions (component.py) -/

/-- Opaque reference to a driver class (`driver.Driver`). -/
structure DriverClass where
  id : Nat
deriving DecidableEq, Repr

/-- The `tfx.components.example_gen.driver.Driver` class attached to
`FileBasedExampleGen` via `DRIVER_CLASS` (component.py line 119). -/
def exampleGenDriver : DriverClass := ⟨1⟩

/-- Class-level default `EXECUTOR_SPEC` of both ExampleGen variants
(component.py lines 54 and 118):
`executor_spec.ExecutorClassSpec(base_executor.BaseExecutor)`. -/
def defaultExampleGenExecutorSpec : ExecutorSpecS :=
  .classSpec ⟨BaseExecutor⟩

/-- A fully assembled query-based ExampleGen component definition: spec,
executor specification and optional instance name (component.py lines 88-94;
the assembly of these fields into one immutable record is modelled from the
spec, section 3 `ComponentDefinition`, since `base_component.BaseComponent`
is not in the source excerpt). -/
structure QueryBasedComponent where
  spec : QueryBasedExampleGenSpecS
  executor_spec : ExecutorSpecS
  driver_class : Option DriverClass
  instance_name : Option String
deriving DecidableEq, Repr

/-- A fully assembled file-based ExampleGen component definition
(component.py lines 166-175; record shape modelled from the spec, section 3
`ComponentDefinition`, since `base_component.BaseComponent` is not in the
source excerpt). -/
structure FileBasedComponent where
  spec : FileBasedExampleGenSpecS
  executor_spec : ExecutorSpecS
  driver_class : Option DriverClass
  instance_name : Option String
deriving DecidableEq, Repr

/-- `_QueryBasedExampleGen.__init__` (component.py lines 56-94): resolve the
output configuration, build the examples channel (one artifact per generated
output split name) unless overridden, bind the spec, and attach the
class-level default executor spec. -/
def QueryBasedExampleGen.init (input_config : InputConfig)
    (output_config : Option OutputConfig) (custom_config : Option CustomConfig)
    (example_artifacts : Option ExamplesChannel)
    (instance_name : Option String) : Except SpecError QueryBasedComponent :=
  let output_config := resolve_output_config input_config output_config
  match resolve_example_artifacts input_config output_config example_artifacts with
  | .error e => .error e
  | .ok examples =>
    match QueryBasedExampleGenSpec.init input_config output_config custom_config examples with
    | .error e => .error e
    | .ok spec =>
      .ok { spec := spec
            executor_spec := defaultExampleGenExecutorSpec
            driver_class := none
            instance_name := instance_name }

/-- `FileBasedExampleGen.__init__` (component.py lines 121-175): resolve
`input_base` from the two aliased source arguments (`input_base or input`),
resolve input and output configurations, build the examples channel unless
overridden, bind the spec (which requires a resolvable source), and attach
the executor spec (instance override or class-level default) and the
class-level driver. -/
def FileBasedExampleGen.init (input_base : Option Channel)
    (input_config : Option InputConfig) (output_config : Option OutputConfig)
    (custom_config : Option CustomConfig)
    (example_artifacts : Option ExamplesChannel)
    (custom_executor_spec : Option ExecutorSpecS) (input : Option Channel)
    (instance_name : Option String) : Except SpecError FileBasedComponent :=
  let input_base := pyOr input_base input
  let input_config := resolve_input_config input_config
  let output_config := resolve_output_config input_config output_config
  match resolve_example_artifacts input_config output_config example_artifacts with
  | .error e => .error e
  | .ok examples =>
    match FileBasedExampleGenSpec.init input_base input_config output_config custom_config examples with
    | .error e => .error e
    | .ok spec =>
      .ok { spec := spec
            executor_spec :=
              match custom_executor_spec with
              | some es => es
              | none => defaultExampleGenExecutorSpec
            driver_class := some exampleGenDriver
            instance_name := instance_name }

/-! ## Helper lemmas -/

theorem resolve_example_artifacts_none_ok (input_config : InputConfig)
    (output_config : OutputConfig) (ch : ExamplesChannel)
    (h : resolve_example_artifacts input_config output_config none = .ok ch)
    (hne : output_config.splits ≠ []) :
    ch.artifacts.map (fun a => a.split)
      = output_config.splits.map (fun s => s.name) := by
  unfold resolve_example_artifacts generate_output_split_names at h
  cases hs : output_config.splits with
  | nil => exact absurd hs hne
  | cons s rest =>
    rw [hs] at h
    by_cases hlen : input_config.splits.length > 1
    · simp [hlen] at h
    · simp [hlen] at h
      rw [← h]
      simp [as_channel, hs]

theorem queryInit_ok (ic : InputConfig) (oc : Option OutputConfig)
    (cc : Option CustomConfig) (ea : Option ExamplesChannel) (n : Option String)
    (comp : QueryBasedComponent)
    (h : QueryBasedExampleGen.init ic oc cc ea n = .ok comp) :
    comp.spec.input_config = ic ∧
    comp.spec.output_config = resolve_output_config ic oc ∧
    comp.spec.custom_config = cc ∧
    resolve_example_artifacts ic (resolve_output_config ic oc) ea
      = .ok comp.spec.examples ∧
    comp.executor_spec = defaultExampleGenExecutorSpec ∧
    comp.instance_name = n := by
  cases hea : resolve_example_artifacts ic (resolve_output_config ic oc) ea with
  | error e =>
    simp [QueryBasedExampleGen.init, hea] at h
  | ok ch =>
    simp [QueryBasedExampleGen.init, hea, QueryBasedExampleGenSpec.init] at h
    rw [← h]
    exact ⟨rfl, rfl, rfl, rfl, rfl, rfl⟩

theorem fileInit_ok (ib : Option Channel) (icfg : Option InputConfig)
    (oc : Option OutputConfig) (cc : Option CustomConfig)
    (ea : Option ExamplesChannel) (ces : Option ExecutorSpecS)
    (inp : Option Channel) (n : Option String) (comp : FileBasedComponent)
    (h : FileBasedExampleGen.init ib icfg oc cc ea ces inp n = .ok comp) :
    pyOr ib inp = some comp.spec.input_base ∧
    comp.spec.input_config = resolve_input_config icfg ∧
    comp.spec.output_config
      = resolve_output_config (resolve_input_config icfg) oc ∧
    comp.spec.custom_config = cc ∧
    resolve_example_artifacts (resolve_input_config icfg)
        (resolve_output_config (resolve_input_config icfg) oc) ea
      = .ok comp.spec.examples ∧
    comp.instance_name = n := by
  cases hea : resolve_example_artifacts (resolve_input_config icfg)
      (resolve_output_config (resolve_input_config icfg) oc) ea with
  | error e =>
    simp [FileBasedExampleGen.init, hea] at h
  | ok ch =>
    cases hib : pyOr ib inp with
    | none =>
      simp [FileBasedExampleGen.init, hea, hib, FileBasedExampleGenSpec.init] at h
    | some c =>
      simp [FileBasedExampleGen.init, hea, hib, FileBasedExampleGenSpec.init] at h
      rw [← h]
      exact ⟨rfl, rfl, rfl, rfl, rfl, rfl⟩

/-! ## Claim theorems -/

/-- C7: constructing a class-based executor specification with a null
(absent) executable-unit reference always fails with an
`InvalidSpecification` error; with a non-null reference it succeeds and
stores that reference unchanged. -/
theorem class_executor_spec_validation :
    ExecutorClassSpec.init none
      = .error (.InvalidSpecification "executor_class is required") ∧
    ∀ c : ExecutorClass, ExecutorClassSpec.init (some c) = .ok ⟨c⟩ :=
  ⟨rfl, fun _ => rfl⟩

/-- C6: constructing a container executor specification fails with an
`InvalidSpecification` error whenever the image is empty or absent; for
every non-empty image with command and args both absent, construction
succeeds, stores the image unchanged and keeps command and args absent. -/
theorem container_executor_spec_validation :
    (∀ (command args : Option (List String)),
      ExecutorContainerSpec.init none command args
        = .error (.InvalidSpecification "image cannot be None or empty.")) ∧
    (∀ (command args : Option (List String)),
      ExecutorContainerSpec.init (some "") command args
        = .error (.InvalidSpecification "image cannot be None or empty.")) ∧
    (∀ image : String, image ≠ "" →
      ExecutorContainerSpec.init (some image) none none
        = .ok ⟨image, none, none⟩) := by
  refine ⟨fun _ _ => rfl, fun _ _ => rfl, fun image h => ?_⟩
  simp [ExecutorContainerSpec.init, h]

/-- Witness for C6: the non-empty-image branch of
`container_executor_spec_validation` at the image "docker/whalesay". -/
theorem container_executor_spec_validation_witness :
    ExecutorContainerSpec.init (some "docker/whalesay") none none
      = .ok ⟨"docker/whalesay", none, none⟩ :=
  container_executor_spec_validation.2.2 "docker/whalesay" (by decide)

/-- C3: for every source channel `c` and every fixed choice of the other
constructor arguments, `FileBasedExampleGen` construction with
`input_base := c` (and `input` absent) yields a component definition
structurally equal to construction with `input := c` (and `input_base`
absent): the two source arguments are interchangeable aliases. -/
theorem input_base_and_input_are_aliases :
    ∀ (c : Channel) (icfg : Option InputConfig) (oc : Option OutputConfig)
      (cc : Option CustomConfig) (ea : Option ExamplesChannel)
      (ces : Option ExecutorSpecS) (n : Option String),
      FileBasedExampleGen.init (some c) icfg oc cc ea ces none n
        = FileBasedExampleGen.init none icfg oc cc ea ces (some c) n :=
  fun _ _ _ _ _ _ _ => rfl

/-- C10: supplying both `input_base` and `input` as non-null channels is not
rejected: the construction behaves exactly as if `input` were absent, so the
resolved source is `input_base` and `input` is silently ignored; with the
remaining arguments valid (here: all defaulted), construction succeeds and
the component spec records `input_base` as the source. -/
theorem input_base_takes_precedence_over_input :
    ∀ (c c' : Channel) (icfg : Option InputConfig) (oc : Option OutputConfig)
      (cc : Option CustomConfig) (ea : Option ExamplesChannel)
      (ces : Option ExecutorSpecS) (n : Option String),
      (FileBasedExampleGen.init (some c) icfg oc cc ea ces (some c') n
        = FileBasedExampleGen.init (some c) icfg oc cc ea ces none n) ∧
      exceptIsOk (FileBasedExampleGen.init (some c) none none none none none
        (some c') none) = true ∧
      (FileBasedExampleGen.init (some c) none none none none none (some c')
        none).map (fun comp => comp.spec.input_base) = .ok c :=
  fun _ _ _ _ _ _ _ _ => ⟨rfl, rfl, rfl⟩

/-- C8: ExampleGen component construction is deterministic: the whole
resolution-and-assembly sequence is a pure function of the constructor
arguments, so any two runs on the same arguments yield structurally equal
results, for both the query-based and the file-based variant. -/
theorem example_gen_construction_deterministic :
    ∀ (ic : InputConfig) (oc : Option OutputConfig) (cc : Option CustomConfig)
      (ea : Option ExamplesChannel) (n : Option String) (ib : Option Channel)
      (ficfg : Option InputConfig) (foc : Option OutputConfig)
      (fcc : Option CustomConfig) (fea : Option ExamplesChannel)
      (ces : Option ExecutorSpecS) (inp : Option Channel) (fn : Option String),
      QueryBasedExampleGen.init ic oc cc ea n
        = QueryBasedExampleGen.init ic oc cc ea n ∧
      FileBasedExampleGen.init ib ficfg foc fcc fea ces inp fn
        = FileBasedExampleGen.init ib ficfg foc fcc fea ces inp fn :=
  fun _ _ _ _ _ _ _ _ _ _ _ _ _ => ⟨rfl, rfl⟩

/-- C1: for every construction of an ExampleGen component, query-based or
file-based, in which the caller supplies no OutputConfig, the resolved output
configuration stored in the component spec contains exactly the two splits
"train" (size hint 2) and "eval" (size hint 1), for every input
configuration (supplied or defaulted) — the result does not depend on the
InputConfig content. -/
theorem absent_output_config_defaults_to_train_eval :
    ∀ (ic : InputConfig) (cc : Option CustomConfig)
      (ea : Option ExamplesChannel) (n : Option String) (ib : Option Channel)
      (ficfg : Option InputConfig) (fcc : Option CustomConfig)
      (fea : Option ExamplesChannel) (ces : Option ExecutorSpecS)
      (inp : Option Channel) (fn : Option String),
      (exceptIsOk (QueryBasedExampleGen.init ic none cc ea n) = true →
        (QueryBasedExampleGen.init ic none cc ea n).map
            (fun comp => comp.spec.output_config)
          = .ok ⟨[⟨"train", 2⟩, ⟨"eval", 1⟩]⟩) ∧
      (exceptIsOk (FileBasedExampleGen.init ib ficfg none fcc fea ces inp fn)
          = true →
        (FileBasedExampleGen.init ib ficfg none fcc fea ces inp fn).map
            (fun comp => comp.spec.output_config)
          = .ok ⟨[⟨"train", 2⟩, ⟨"eval", 1⟩]⟩) := by
  intro ic cc ea n ib ficfg fcc fea ces inp fn
  constructor
  · intro h
    cases hq : QueryBasedExampleGen.init ic none cc ea n with
    | error e => rw [hq] at h; simp [exceptIsOk] at h
    | ok comp =>
      have hc := (queryInit_ok ic none cc ea n comp hq).2.1
      simp [Except.map, hc, resolve_output_config, make_default_output_config]
  · intro h
    cases hf : FileBasedExampleGen.init ib ficfg none fcc fea ces inp fn with
    | error e => rw [hf] at h; simp [exceptIsOk] at h
    | ok comp =>
      have hc := (fileInit_ok ib ficfg none fcc fea ces inp fn comp hf).2.2.1
      simp [Except.map, hc, resolve_output_config, make_default_output_config]

/-- Witness for C1: both branches of
`absent_output_config_defaults_to_train_eval` at concrete arguments — a
query-based construction from a two-split input configuration and a
file-based construction from the path-style source "/data/x". -/
theorem absent_output_config_defaults_to_train_eval_witness :
    ((QueryBasedExampleGen.init ⟨[⟨"a", none⟩, ⟨"b", none⟩]⟩ none none
        (some ⟨[⟨"train"⟩]⟩) none).map (fun comp => comp.spec.output_config)
      = .ok ⟨[⟨"train", 2⟩, ⟨"eval", 1⟩]⟩) ∧
    ((FileBasedExampleGen.init (some ⟨"/data/x"⟩) none none none none none
        none none).map (fun comp => comp.spec.output_config)
      = .ok ⟨[⟨"train", 2⟩, ⟨"eval", 1⟩]⟩) :=
  ⟨(absent_output_config_defaults_to_train_eval ⟨[⟨"a", none⟩, ⟨"b", none⟩]⟩
      none (some ⟨[⟨"train"⟩]⟩) none (some ⟨"/data/x"⟩) none none none none
      none none).1 rfl,
   (absent_output_config_defaults_to_train_eval ⟨[⟨"a", none⟩, ⟨"b", none⟩]⟩
      none (some ⟨[⟨"train"⟩]⟩) none (some ⟨"/data/x"⟩) none none none none
      none none).2 rfl⟩

/-- C4: for every construction of a file-based ExampleGen component in which
the caller supplies no InputConfig, the resolved input configuration stored
in the component spec contains exactly one input split, named "single", with
no pattern filter. -/
theorem absent_input_config_defaults_to_single :
    ∀ (ib : Option Channel) (oc : Option OutputConfig)
      (cc : Option CustomConfig) (ea : Option ExamplesChannel)
      (ces : Option ExecutorSpecS) (inp : Option Channel) (n : Option String),
      exceptIsOk (FileBasedExampleGen.init ib none oc cc ea ces inp n)
        = true →
      (FileBasedExampleGen.init ib none oc cc ea ces inp n).map
          (fun comp => comp.spec.input_config)
        = .ok ⟨[⟨"single", none⟩]⟩ := by
  intro ib oc cc ea ces inp n h
  cases hf : FileBasedExampleGen.init ib none oc cc ea ces inp n with
  | error e => rw [hf] at h; simp [exceptIsOk] at h
  | ok comp =>
    have hc := (fileInit_ok ib none oc cc ea ces inp n comp hf).2.1
    simp [Except.map, hc, resolve_input_config, make_default_input_config]

/-- Witness for C4: `absent_input_config_defaults_to_single` at a concrete
file-based construction from the path-style source "/data/x". -/
theorem absent_input_config_defaults_to_single_witness :
    (FileBasedExampleGen.init (some ⟨"/data/x"⟩) none none none none none
        none none).map (fun comp => comp.spec.input_config)
      = .ok ⟨[⟨"single", none⟩]⟩ :=
  absent_input_config_defaults_to_single (some ⟨"/data/x"⟩) none none none
    none none none rfl

/-- C2 counterexample: with neither source argument supplied, construction
does not always fail with `MissingRequiredField` — the examples channel is
built before the spec is validated (component.py lines 161-171), so an
ambiguous split configuration raises `AmbiguousSplitConfiguration` first at
this concrete input. -/
theorem no_source_with_ambiguous_splits_fails_differently :
    FileBasedExampleGen.init none (some ⟨[⟨"a", none⟩, ⟨"b", none⟩]⟩)
        (some ⟨[⟨"train", 2⟩]⟩) none none none none none
      = .error (.AmbiguousSplitConfiguration
          "output split configuration conflicts with input split cardinality") :=
  rfl

/-- C2 amended: with neither `input` nor `input_base` supplied, whenever the
examples-channel step does not itself raise (it runs first), construction
fails eagerly with `MissingRequiredField` — never silently defaulted or
deferred. -/
theorem no_source_fails_with_missing_required_field :
    ∀ (ficfg : Option InputConfig) (oc : Option OutputConfig)
      (cc : Option CustomConfig) (ea : Option ExamplesChannel)
      (ces : Option ExecutorSpecS) (n : Option String),
      exceptIsOk (resolve_example_artifacts (resolve_input_config ficfg)
          (resolve_output_config (resolve_input_config ficfg) oc) ea)
        = true →
      FileBasedExampleGen.init none ficfg oc cc ea ces none n
        = .error (.MissingRequiredField "input_base") := by
  intro ficfg oc cc ea ces n h
  cases hea : resolve_example_artifacts (resolve_input_config ficfg)
      (resolve_output_config (resolve_input_config ficfg) oc) ea with
  | error e => rw [hea] at h; simp [exceptIsOk] at h
  | ok ch =>
    simp [FileBasedExampleGen.init, hea, FileBasedExampleGenSpec.init, pyOr]

/-- Witness for C2: `no_source_fails_with_missing_required_field` with every
other argument defaulted. -/
theorem no_source_fails_with_missing_required_field_witness :
    FileBasedExampleGen.init none none none none none none none none
      = .error (.MissingRequiredField "input_base") :=
  no_source_fails_with_missing_required_field none none none none none none
    rfl

/-- C5 counterexample: a file-based construction with a supplied
`OutputConfig` whose split list is empty succeeds (mirroring the single
input split) with one Examples artifact while the resolved OutputConfig has
zero output splits, so the artifact count does not equal the output split
count at this concrete input. -/
theorem artifact_count_differs_from_output_split_count :
    (FileBasedExampleGen.init (some ⟨"/data/x"⟩) none (some ⟨[]⟩) none none
        none none none).map (fun comp =>
          (comp.spec.examples.artifacts.length,
            comp.spec.output_config.splits.length))
      = .ok (1, 0) :=
  rfl

/-- C5 amended: for every ExampleGen construction without an
`example_artifacts` override, when the resolved OutputConfig's split list is
non-empty the Examples artifacts correspond one-for-one to the resolved
output splits — equal count, each artifact's split tag equal to the
corresponding split's name, in the split order of the resolved
OutputConfig. -/
theorem artifacts_mirror_resolved_output_split_names :
    ∀ (ic : InputConfig) (oc : Option OutputConfig) (cc : Option CustomConfig)
      (n : Option String) (ib : Option Channel) (ficfg : Option InputConfig)
      (foc : Option OutputConfig) (fcc : Option CustomConfig)
      (ces : Option ExecutorSpecS) (inp : Option Channel) (fn : Option String),
      ((resolve_output_config ic oc).splits ≠ [] →
        (QueryBasedExampleGen.init ic oc cc none n).map
            (fun comp => comp.spec.examples.artifacts.map (fun a => a.split))
          = (QueryBasedExampleGen.init ic oc cc none n).map
            (fun comp =>
              comp.spec.output_config.splits.map (fun s => s.name))) ∧
      ((resolve_output_config (resolve_input_config ficfg) foc).splits ≠ [] →
        (FileBasedExampleGen.init ib ficfg foc fcc none ces inp fn).map
            (fun comp => comp.spec.examples.artifacts.map (fun a => a.split))
          = (FileBasedExampleGen.init ib ficfg foc fcc none ces inp fn).map
            (fun comp =>
              comp.spec.output_config.splits.map (fun s => s.name))) := by
  intro ic oc cc n ib ficfg foc fcc ces inp fn
  constructor
  · intro hne
    cases hq : QueryBasedExampleGen.init ic oc cc none n with
    | error e => rfl
    | ok comp =>
      have hk := queryInit_ok ic oc cc none n comp hq
      have ha := resolve_example_artifacts_none_ok ic
        (resolve_output_config ic oc) comp.spec.examples hk.2.2.2.1 hne
      simp [Except.map, ha, hk.2.1]
  · intro hne
    cases hf : FileBasedExampleGen.init ib ficfg foc fcc none ces inp fn with
    | error e => rfl
    | ok comp =>
      have hk := fileInit_ok ib ficfg foc fcc none ces inp fn comp hf
      have ha := resolve_example_artifacts_none_ok (resolve_input_config ficfg)
        (resolve_output_config (resolve_input_config ficfg) foc)
        comp.spec.examples hk.2.2.2.2.1 hne
      simp [Except.map, ha, hk.2.2.1]

/-- Witness for C5: both branches of
`artifacts_mirror_resolved_output_split_names` at concrete constructions
with defaulted output configuration (two splits, "train" and "eval"). -/
theorem artifacts_mirror_resolved_output_split_names_witness :
    ((QueryBasedExampleGen.init ⟨[⟨"single", none⟩]⟩ none none none none).map
        (fun comp => comp.spec.examples.artifacts.map (fun a => a.split))
      = (QueryBasedExampleGen.init ⟨[⟨"single", none⟩]⟩ none none none
          none).map
        (fun comp => comp.spec.output_config.splits.map (fun s => s.name))) ∧
    ((FileBasedExampleGen.init (some ⟨"/data/x"⟩) none none none none none
        none none).map
        (fun comp => comp.spec.examples.artifacts.map (fun a => a.split))
      = (FileBasedExampleGen.init (some ⟨"/data/x"⟩) none none none none none
        none none).map
        (fun comp => comp.spec.output_config.splits.map (fun s => s.name))) :=
  ⟨(artifacts_mirror_resolved_output_split_names ⟨[⟨"single", none⟩]⟩ none
      none none (some ⟨"/data/x"⟩) none none none none none none).1
      (by decide),
   (artifacts_mirror_resolved_output_split_names ⟨[⟨"single", none⟩]⟩ none
      none none (some ⟨"/data/x"⟩) none none none none none none).2
      (by decide)⟩

/-- C9 counterexample: with a multi-split InputConfig and a non-empty
OutputConfig split list, construction does not always fail — when the caller
supplies an `example_artifacts` override, the short-circuiting `or`
(component.py lines 161-165) skips `generate_output_split_names` entirely
and construction succeeds at this concrete input. -/
theorem ambiguous_split_configuration_skipped_with_override :
    exceptIsOk (FileBasedExampleGen.init (some ⟨"/data/x"⟩)
        (some ⟨[⟨"a", none⟩, ⟨"b", none⟩]⟩) (some ⟨[⟨"train", 2⟩]⟩) none
        (some ⟨[⟨"train"⟩]⟩) none none none) = true :=
  rfl

/-- C9 amended: when the supplied InputConfig defines more than one input
split and the supplied OutputConfig has a non-empty split list, construction
without an `example_artifacts` override fails eagerly with
`AmbiguousSplitConfiguration` (query-based and file-based alike); when the
OutputConfig split list is empty in that situation, the resolved output
split names mirror the input split names one-for-one. -/
theorem ambiguous_split_configuration_rejected :
    ∀ (ic : InputConfig) (oc : OutputConfig) (cc : Option CustomConfig)
      (n : Option String) (ib : Option Channel) (fcc : Option CustomConfig)
      (ces : Option ExecutorSpecS) (inp : Option Channel) (fn : Option String)
      (oc2 : OutputConfig),
      ic.splits.length > 1 →
      (oc.splits ≠ [] →
        QueryBasedExampleGen.init ic (some oc) cc none n
          = .error (.AmbiguousSplitConfiguration
              "output split configuration conflicts with input split cardinality") ∧
        FileBasedExampleGen.init ib (some ic) (some oc) fcc none ces inp fn
          = .error (.AmbiguousSplitConfiguration
              "output split configuration conflicts with input split cardinality")) ∧
      (oc2.splits = [] →
        generate_output_split_names ic oc2
          = .ok (ic.splits.map (fun s => s.name))) := by
  intro ic oc cc n ib fcc ces inp fn oc2 hlen
  constructor
  · intro hne
    have hgen : generate_output_split_names ic oc
        = .error (.AmbiguousSplitConfiguration
            "output split configuration conflicts with input split cardinality") := by
      unfold generate_output_split_names
      cases hs : oc.splits with
      | nil => exact absurd hs hne
      | cons a b => simp [hlen]
    have hea : resolve_example_artifacts ic oc none
        = .error (.AmbiguousSplitConfiguration
            "output split configuration conflicts with input split cardinality") := by
      simp [resolve_example_artifacts, hgen]
    constructor
    · simp [QueryBasedExampleGen.init, resolve_output_config, hea]
    · simp [FileBasedExampleGen.init, resolve_input_config,
        resolve_output_config, hea]
  · intro he
    unfold generate_output_split_names
    simp [he]

/-- Witness for C9: `ambiguous_split_configuration_rejected` at a two-split
input configuration, a one-split output configuration for the rejection
branches, and an empty output configuration for the mirroring branch. -/
theorem ambiguous_split_configuration_rejected_witness :
    (QueryBasedExampleGen.init ⟨[⟨"a", none⟩, ⟨"b", none⟩]⟩
        (some ⟨[⟨"train", 2⟩]⟩) none none none
      = .error (.AmbiguousSplitConfiguration
          "output split configuration conflicts with input split cardinality")) ∧
    (FileBasedExampleGen.init (some ⟨"/data/x"⟩)
        (some ⟨[⟨"a", none⟩, ⟨"b", none⟩]⟩) (some ⟨[⟨"train", 2⟩]⟩) none none
        none none none
      = .error (.AmbiguousSplitConfiguration
          "output split configuration conflicts with input split cardinality")) ∧
    (generate_output_split_names ⟨[⟨"a", none⟩, ⟨"b", none⟩]⟩ ⟨[]⟩
      = .ok ["a", "b"]) := by
  have H := ambiguous_split_configuration_rejected
    ⟨[⟨"a", none⟩, ⟨"b", none⟩]⟩ ⟨[⟨"train", 2⟩]⟩ none none
    (some ⟨"/data/x"⟩) none none none none ⟨[]⟩ (by decide)
  exact ⟨(H.1 (by decide)).1, (H.1 (by decide)).2, H.2 rfl⟩
